import Mathlib

/-!
Verification development for the sheltr Shadow & Shelter Route Scoring
Engine (`backend/modules/sun_router.py`).

The geometric kernel (shapely) is an external library; we embed its
objects with a discrete point-set model:

* a metric-frame coordinate (`Cell`) is a pair of integers (meters);
* a polygonal region (`Region`) is the list of cells it covers, with
  union given by concatenation and membership by list membership;
* a projected step line (`Line`) is its list of vertices; its length is
  the number of its non-degenerate consecutive segments, and the length
  of `line ∩ region` is the number of segments with both endpoints in
  the region (a counting measure, so all measure-like facts used by the
  scoring code are genuine theorems of the model);
* distance from a line to a point is the minimum over the line's
  vertices of the Chebyshev cell distance;
* polyline encoding (`googlemaps.convert.encode_polyline`) is modelled
  as the identity on coordinate paths.

Floating point lengths and ratios are modelled by `ℚ`; the solar
geometry of `calculate_shadows` (which lives in `ℝ` via `math.tan`) is
modelled over `ℝ`.  I/O performed by the module (`fetch_rainfall`, the
shelter shapefile) is modelled by passing the fetched data as explicit
arguments.
-/

namespace SunRouter

/-- A point of the EPSG:3857 metric frame, discretised to integer cells. -/
abbrev Cell : Type := ℤ × ℤ

/-- A polygonal region: the list of cells it covers (union of points). -/
abbrev Region : Type := List Cell

/-- A projected step line: its list of vertices. -/
abbrev Line : Type := List Cell

/-- An encoded polyline / encoded polygon ring (encoding modelled as the
identity on coordinate paths). -/
abbrev EncodedPath : Type := List Cell

/-- Chebyshev distance between two metric cells (meters). -/
def chebDist (a b : Cell) : ℕ :=
  max (a.1 - b.1).natAbs (a.2 - b.2).natAbs

/-- Python `min` over a list of naturals (`min(xs)`); 0 on the empty
list, which the source never passes. -/
def pyMin : List ℕ → ℕ
  | [] => 0
  | x :: xs => xs.foldl min x

/-- Shapely distance from a line to a point: minimum vertex distance. -/
def lineDist (l : Line) (p : Cell) : ℕ :=
  pyMin (l.map (fun v => chebDist v p))

/-- `RAIN_PROXIMITY_METERS` from `analyze_routes` (line 285). -/
def RAIN_PROXIMITY_METERS : ℕ := 5000

/-- Lines 345-349 of `analyze_routes`: with a nonempty raining-station
list, the step raises the rain flag iff the minimum distance from the
step line to the stations is strictly below the proximity threshold. -/
def rainHit (raining_points : List Cell) (l : Line) : Bool :=
  match raining_points with
  | [] => false
  | p :: ps =>
      decide (pyMin ((p :: ps).map (fun rp => lineDist l rp)) < RAIN_PROXIMITY_METERS)

/-- The non-degenerate consecutive segments of a line (zero-length
segments contribute no length in shapely). -/
def lineSegs (l : Line) : List (Cell × Cell) :=
  (l.zip l.tail).filter (fun s => decide (s.1 ≠ s.2))

/-- Segments of `l` lying inside region `R` (both endpoints covered):
the pieces of `l ∩ R`. -/
def interSegs (l : Line) (R : Region) : List (Cell × Cell) :=
  (lineSegs l).filter (fun s => decide (s.1 ∈ R) && decide (s.2 ∈ R))

/-- Metric length of a line (float in the source, `ℚ` here). -/
def lineLen (l : Line) : ℚ := ((lineSegs l).length : ℚ)

/-- Metric length of `l ∩ R`. -/
def interLen (l : Line) (R : Region) : ℚ := ((interSegs l R).length : ℚ)

/-- A covered-linkway geometry from the shelter shapefile: a single
polygon (its exterior ring) or a multi-polygon (one ring per part). -/
inductive ShelterGeom : Type where
  | poly (ring : List Cell)
  | multi (rings : List (List Cell))
deriving DecidableEq

/-- The cells covered by a shelter geometry. -/
def ShelterGeom.cells : ShelterGeom → Region
  | .poly ring => ring
  | .multi rings => rings.flatten

/-- Shapely `shelter.intersects(line)`: the line meets the shelter. -/
def lineIntersects (l : Line) (sh : ShelterGeom) : Bool :=
  l.any (fun v => decide (v ∈ sh.cells))

/-- Lines 360-362 of `analyze_routes`: the shelters intersecting the
step line (spatial-index prefilter followed by the exact test yields
exactly the intersecting rows, in dataset order). -/
def preciseMatches (shelters : List ShelterGeom) (l : Line) : List ShelterGeom :=
  shelters.filter (fun sh => lineIntersects l sh)

/-- Union of a list of regions (`unary_union`). -/
def regionUnion (rs : List Region) : Region := rs.flatten

/-- Line 365: union of the shelters intersecting the step. -/
def shelterUnionOf (shelters : List ShelterGeom) (l : Line) : Region :=
  regionUnion ((preciseMatches shelters l).map ShelterGeom.cells)

/-- Lines 274-277: merge all shadow polygons once per call
(`unary_union(shadows)`, the empty polygon when there are none). -/
def shadowUnion (shadows : List Region) : Region := regionUnion shadows

/-- Lines 357-367: `sheltered_len` for a step: length of the step line
intersected with the union of intersecting shelters, 0 when the shelter
dataset is absent or no shelter intersects. -/
def shelteredLen (shelters : Option (List ShelterGeom)) (l : Line) : ℚ :=
  match shelters with
  | none => 0
  | some shl =>
      if preciseMatches shl l = [] then 0
      else interLen l (shelterUnionOf shl l)

/-- Lines 404-419: `effective_protection_len` for a step: when some
shelter intersects, the length of the line intersected with the union
of the shadow union and the intersecting shelters; otherwise the
shadow-only intersection length. -/
def effectiveLen (shadowU : Region) (shelters : Option (List ShelterGeom)) (l : Line) : ℚ :=
  match shelters with
  | none => interLen l shadowU
  | some shl =>
      if preciseMatches shl l = [] then interLen l shadowU
      else interLen l (shadowU ++ shelterUnionOf shl l)

/-- Lines 369-394: encoded on-route sheltered segments extracted for a
walking step whose shelter intersection is nonempty (each linear piece
of the intersection is encoded; pieces have two points, hence always
pass the `>= 2` check). -/
def stepShelterSegs (shelters : Option (List ShelterGeom)) (l : Line)
    (travelMode : Option String) : List EncodedPath :=
  match shelters with
  | none => []
  | some shl =>
      if preciseMatches shl l = [] then []
      else
        let su := shelterUnionOf shl l
        if interSegs l su ≠ [] ∧ travelMode = some "WALK" then
          (interSegs l su).map (fun s => [s.1, s.2])
        else []

/-- Shapely `buffer(100)` query of lines 399-401: a shelter meets the
100 m buffer of the step line iff some cell of the shelter is within
100 m of the line. -/
def shelterNearBuffer (l : Line) (sh : ShelterGeom) : Bool :=
  sh.cells.any (fun c => decide (lineDist l c ≤ 100))

/-- Line 401: indices (dataset positions) of the shelters meeting the
buffered step line. -/
def stepNearbyIdx (shelters : List ShelterGeom) (l : Line) : List ℕ :=
  (shelters.enum.filter (fun p => shelterNearBuffer l p.2)).map (fun p => p.1)

/-- Insert an index into a sorted duplicate-free list (model of adding
an element to the Python `set` of shelter indices, iterated in
ascending order). -/
def insertIdx (i : ℕ) : List ℕ → List ℕ
  | [] => [i]
  | j :: t =>
      if i < j then i :: j :: t
      else if i = j then j :: t
      else j :: insertIdx i t

/-- `nearby_shelters_indices.update(...)` of line 402. -/
def updateIdx (acc : List ℕ) (new : List ℕ) : List ℕ :=
  new.foldl (fun s i => insertIdx i s) acc

/-- A step of a Routes API v2 route.  `polyline` is the decoded,
metric-projected coordinate list of `polyline.encodedPolyline`
(`none` when the field is missing or decodes to nothing). -/
structure Step : Type where
  polyline : Option (List Cell)
  travelMode : Option String
  instruction : Option String
  distanceText : Option String
  distanceMeters : ℕ
deriving DecidableEq

/-- A leg of a route. -/
structure Leg : Type where
  steps : List Step
deriving DecidableEq

/-- A route candidate of the Routes API v2 response. -/
structure Route : Type where
  legs : List Leg
  summary : Option String
  duration : Option String
  distanceMeters : ℕ
deriving DecidableEq

/-- Lines 322-334: the analysed line of a step; `none` when the step is
skipped (missing polyline or fewer than 2 decoded points). -/
def validLine (s : Step) : Option Line :=
  match s.polyline with
  | none => none
  | some l => if 2 ≤ l.length then some l else none

/-- All steps of a route, in leg order (lines 318-320). -/
def routeSteps (r : Route) : List Step := r.legs.flatMap Leg.steps

/-- One record of `steps_analysis` (lines 439-447). -/
structure StepAnalysis : Type where
  instruction : String
  distance_text : String
  shadow_ratio : ℚ
  length_m : ℚ
  shadow_length_m : ℚ
  sheltered_length_m : ℚ
  travel_mode : Option String
deriving DecidableEq

/-- One scored route of the output list (lines 498-511). -/
structure ScoredRoute : Type where
  summary : String
  duration : String
  distance : String
  shadow_ratio : ℚ
  shadow_length_m : ℚ
  sheltered_length_m : ℚ
  total_length_m : ℚ
  exposed_distance_m : ℚ
  steps_analysis : List StepAnalysis
  sheltered_segments : List EncodedPath
  nearby_shelters : List EncodedPath
  data : Route
deriving DecidableEq

/-- The per-route mutable accumulators of lines 301-315. -/
structure StepAcc : Type where
  total_length_m : ℚ
  total_shadow_length_m : ℚ
  total_sheltered_length_m : ℚ
  total_walk_length_m : ℚ
  total_walk_shadow_length_m : ℚ
  total_walk_sheltered_length_m : ℚ
  steps_analysis : List StepAnalysis
  sheltered_segments : List EncodedPath
  nearby_idx : List ℕ
  is_rain_likely : Bool

/-- Accumulator state at the top of the per-route loop. -/
def initAcc : StepAcc :=
  { total_length_m := 0, total_shadow_length_m := 0, total_sheltered_length_m := 0
    total_walk_length_m := 0, total_walk_shadow_length_m := 0
    total_walk_sheltered_length_m := 0, steps_analysis := []
    sheltered_segments := [], nearby_idx := [], is_rain_likely := false }

/-- Is the step a walking step (`step.get('travelMode') == 'WALK'`)? -/
def isWalk (s : Step) : Bool := decide (s.travelMode = some "WALK")

/-- The body of the per-step loop of `analyze_routes` (lines 320-447),
as a fold step over the accumulators.  A step without a valid line is
skipped (lines 322-334). -/
def stepFold (shadowU : Region) (shelters : Option (List ShelterGeom))
    (raining_points : List Cell) (acc : StepAcc) (s : Step) : StepAcc :=
  match validLine s with
  | none => acc
  | some l =>
      let step_length : ℚ := lineLen l
      let flag : Bool := acc.is_rain_likely || rainHit raining_points l
      let sheltered_len : ℚ := shelteredLen shelters l
      let segs : List EncodedPath :=
        acc.sheltered_segments ++ stepShelterSegs shelters l s.travelMode
      let nidx : List ℕ :=
        match shelters with
        | none => acc.nearby_idx
        | some shl =>
            if flag && isWalk s then updateIdx acc.nearby_idx (stepNearbyIdx shl l)
            else acc.nearby_idx
      let effective_protection_len : ℚ := effectiveLen shadowU shelters l
      let ratio : ℚ := if 0 < step_length then effective_protection_len / step_length else 0
      { total_length_m := acc.total_length_m + step_length
        total_shadow_length_m := acc.total_shadow_length_m + effective_protection_len
        total_sheltered_length_m := acc.total_sheltered_length_m + sheltered_len
        total_walk_length_m :=
          acc.total_walk_length_m + (if isWalk s then step_length else 0)
        total_walk_shadow_length_m :=
          acc.total_walk_shadow_length_m + (if isWalk s then effective_protection_len else 0)
        total_walk_sheltered_length_m :=
          acc.total_walk_sheltered_length_m + (if isWalk s then sheltered_len else 0)
        steps_analysis := acc.steps_analysis ++
          [{ instruction := s.instruction.getD "Unknown Step"
             distance_text := s.distanceText.getD (toString s.distanceMeters ++ "m")
             shadow_ratio := ratio
             length_m := step_length
             shadow_length_m := effective_protection_len
             sheltered_length_m := sheltered_len
             travel_mode := s.travelMode }]
        sheltered_segments := segs
        nearby_idx := nidx
        is_rain_likely := flag }

/-- The accumulator after the per-route loop. -/
def routeAcc (shadowU : Region) (shelters : Option (List ShelterGeom))
    (raining_points : List Cell) (r : Route) : StepAcc :=
  (routeSteps r).foldl (stepFold shadowU shelters raining_points) initAcc

/-- The route-level `is_rain_likely` flag (line 315 initialisation,
updated at lines 345-349). -/
def routeRainFlag (shadowU : Region) (shelters : Option (List ShelterGeom))
    (raining_points : List Cell) (r : Route) : Bool :=
  (routeAcc shadowU shelters raining_points r).is_rain_likely

/-- Lines 450-472: encode one nearby shelter geometry.  For a polygon
the exterior ring is appended once; for each part of a multi-polygon
the duplicated block at lines 470-472 appends the part a second time. -/
def encodeShelter : ShelterGeom → List EncodedPath
  | .poly ring => if 2 ≤ ring.length then [ring] else []
  | .multi rings =>
      rings.flatMap (fun ring =>
        (if 2 ≤ ring.length then [ring] else []) ++
        (if 2 ≤ ring.length then [ring] else []))

/-- Lines 449-472: the encoded nearby-shelter geometries gathered from
the collected index set (empty when the set is empty or the shelter
dataset is absent). -/
def nearbyEncoded (shelters : Option (List ShelterGeom)) (idx : List ℕ) : List EncodedPath :=
  match shelters with
  | none => []
  | some shl =>
      if idx = [] then []
      else idx.flatMap (fun i => ((shl.get? i).map encodeShelter).getD [])

/-- Lines 297-511 without the rain gating of lines 474-478: the scored
route as built from the accumulators.  Reference point for the theorem
that the gating clears exactly the two shelter-geometry fields. -/
def scoreRouteUngated (shadowU : Region) (shelters : Option (List ShelterGeom))
    (raining_points : List Cell) (r : Route) : ScoredRoute :=
  let acc := routeAcc shadowU shelters raining_points r
  let total_ratio : ℚ :=
    if 0 < acc.total_walk_length_m then
      acc.total_walk_shadow_length_m / acc.total_walk_length_m
    else if 0 < acc.total_length_m then
      acc.total_shadow_length_m / acc.total_length_m
    else 0
  let exposed : ℚ :=
    if 0 < acc.total_walk_length_m then
      acc.total_walk_length_m - acc.total_walk_shadow_length_m
    else 0
  { summary := r.summary.getD "Route"
    duration := r.duration.getD "0s"
    distance := toString r.distanceMeters ++ " m"
    shadow_ratio := total_ratio
    shadow_length_m := acc.total_shadow_length_m
    sheltered_length_m := acc.total_sheltered_length_m
    total_length_m := acc.total_length_m
    exposed_distance_m := exposed
    steps_analysis := acc.steps_analysis
    sheltered_segments := acc.sheltered_segments
    nearby_shelters := nearbyEncoded shelters acc.nearby_idx
    data := r }

/-- Lines 297-511: one iteration of the per-route loop, the rain gating
of lines 474-478 included: when the route is not rain-affected, both
`sheltered_segments` and `nearby_shelters` are cleared. -/
def scoreRoute (shadowU : Region) (shelters : Option (List ShelterGeom))
    (raining_points : List Cell) (r : Route) : ScoredRoute :=
  if routeRainFlag shadowU shelters raining_points r then
    scoreRouteUngated shadowU shelters raining_points r
  else
    { scoreRouteUngated shadowU shelters raining_points r with
      sheltered_segments := [], nearby_shelters := [] }

/-- Stable descending insertion by `shadow_ratio`: the new element goes
after every already-placed element whose ratio is not smaller. -/
def insertScored (x : ScoredRoute) : List ScoredRoute → List ScoredRoute
  | [] => [x]
  | y :: ys =>
      if y.shadow_ratio < x.shadow_ratio then x :: y :: ys
      else y :: insertScored x ys

/-- Line 513, `scored_routes.sort(key=..., reverse=True)`: Python's
stable sort, descending by `shadow_ratio`; modelled by stable insertion
processing the list in input order. -/
def sortScored (l : List ScoredRoute) : List ScoredRoute :=
  l.foldl (fun acc x => insertScored x acc) []

/-- `analyze_routes(routes_data, shadows)` (lines 265-515).  The data
fetched by `fetch_rainfall()` and the shelter dataset loaded at startup
enter as explicit arguments. -/
def analyze_routes (shelters : Option (List ShelterGeom)) (raining_points : List Cell)
    (routes_data : List Route) (shadows : List Region) : List ScoredRoute :=
  sortScored (routes_data.map (scoreRoute (shadowUnion shadows) shelters raining_points))

/-! ## `calculate_shadows` (lines 161-227) -/

/-- A building footprint row as it reaches the shadow loop: its
projected geometry together with the raw `height` and
`building:levels` tags (present iff the column holds a non-null value,
kept as the string Python's `str(...)` produces). -/
inductive BuildingGeom : Type where
  | polygon (part : List (ℚ × ℚ))
  | multiPolygon (parts : List (List (ℚ × ℚ)))
  | other
deriving DecidableEq

/-- One row of the projected buildings frame. -/
structure BuildingRow : Type where
  geom : BuildingGeom
  height : Option String
  levels : Option String
deriving DecidableEq

/-- `str(row['height']).split(' ')[0]`: the prefix of the tag before
the first space (the whole tag when it has no space; the empty string
when the tag starts with a space or is empty — exactly the first
element Python's `split(' ')` produces). -/
def leadingToken (s : String) : String :=
  String.mk (s.toList.takeWhile (fun c => decide (c ≠ ' ')))

/-- Lines 193-207 of `calculate_shadows`: resolve the height used for
shadow projection.  `pyFloat` is Python's `float(...)` parser (`none`
when it raises `ValueError`).  The `height` tag, when present, is split
on spaces and its leading token parsed; a parse failure keeps the 10.0
default (the `elif` never runs).  Only when the `height` tag is absent
is `building:levels` parsed, scaled by 3.0 m per floor. -/
def resolveHeight (pyFloat : String → Option ℚ) (row : BuildingRow) : ℚ :=
  match row.height with
  | some h => (pyFloat (leadingToken h)).getD 10
  | none =>
      match row.levels with
      | some lv =>
          match pyFloat lv with
          | some levels => levels * 3
          | none => 10
      | none => 10

/-- Lines 170-174: the shadow-length scale factor, capped at 100 below
1 degree of altitude. -/
noncomputable def scale_factor (sun_altitude : ℝ) : ℝ :=
  if sun_altitude < 1 then 100
  else 1 / Real.tan (sun_altitude * Real.pi / 180)

/-- A shadow polygon: the convex hull of a footprint part united with
its copy translated by `(dx, dy)` (kept symbolic; the hull itself is a
shapely operation). -/
structure Shadow : Type where
  part : List (ℚ × ℚ)
  dx : ℝ
  dy : ℝ

/-- Lines 209-225: the shadows cast by one building row. -/
noncomputable def rowShadows (pyFloat : String → Option ℚ) (sun_azimuth sun_altitude : ℝ)
    (row : BuildingRow) : List Shadow :=
  let height : ℝ := (resolveHeight pyFloat row : ℚ)
  let shadow_len : ℝ := height * scale_factor sun_altitude
  let shadow_azimuth_rad : ℝ := (sun_azimuth + 180) * Real.pi / 180
  let dx : ℝ := shadow_len * Real.sin shadow_azimuth_rad
  let dy : ℝ := shadow_len * Real.cos shadow_azimuth_rad
  match row.geom with
  | .polygon part => [{ part := part, dx := dx, dy := dy }]
  | .multiPolygon parts => parts.map (fun part => { part := part, dx := dx, dy := dy })
  | .other => []

/-- `calculate_shadows(buildings, sun_azimuth, sun_altitude)`
(lines 161-227): empty at or below the horizon, otherwise one shadow
per single-part footprint. -/
noncomputable def calculate_shadows (pyFloat : String → Option ℚ)
    (buildings : List BuildingRow) (sun_azimuth sun_altitude : ℝ) : List Shadow :=
  if sun_altitude ≤ 0 then []
  else buildings.flatMap (rowShadows pyFloat sun_azimuth sun_altitude)

/-! ## Derived views used to state theorems -/

/-- The analysed (non-skipped) steps paired with their valid lines. -/
def analyzedSteps (steps : List Step) : List (Step × Line) :=
  steps.filterMap (fun s => (validLine s).map (fun l => (s, l)))

/-! ## Concrete scenario data used by witnesses and counterexamples -/

/-- A ten-segment line used by `stepA`. -/
def lineA : Line :=
  [((100 : ℤ), (0 : ℤ)), (101, 0), (102, 0), (103, 0), (104, 0),
    (105, 0), (106, 0), (107, 0), (108, 0), (109, 0), (110, 0)]

/-- A five-segment line used by `stepB`. -/
def lineB : Line := [((0 : ℤ), (0 : ℤ)), (1, 0), (2, 0), (3, 0), (4, 0), (5, 0)]

/-- A walking step whose projected line has ten unit segments. -/
def stepA : Step :=
  { polyline := some lineA
    travelMode := some "WALK", instruction := none, distanceText := none
    distanceMeters := 10 }

/-- A route consisting of the single step `stepA`. -/
def routeA : Route :=
  { legs := [{ steps := [stepA] }], summary := none, duration := none, distanceMeters := 10 }

/-- A walking step whose projected line has five unit segments. -/
def stepB : Step :=
  { polyline := some lineB
    travelMode := some "WALK", instruction := none, distanceText := none
    distanceMeters := 5 }

/-- A route consisting of the single step `stepB`. -/
def routeB : Route :=
  { legs := [{ steps := [stepB] }], summary := none, duration := none, distanceMeters := 5 }

/-- A shadow set covering three segments of `stepA` (ratio 3/10) and
three segments of `stepB` (ratio 3/5). -/
def demoShadows : List Region :=
  [[((0 : ℤ), (0 : ℤ)), (1, 0), (2, 0), (3, 0), (100, 0), (101, 0), (102, 0), (103, 0)]]

/-- A walking step with a single unit segment starting at the origin. -/
def stepC : Step :=
  { polyline := some [((0 : ℤ), (0 : ℤ)), (1, 0)]
    travelMode := some "WALK", instruction := none, distanceText := none
    distanceMeters := 1 }

/-- A route consisting of the single step `stepC`. -/
def routeC : Route :=
  { legs := [{ steps := [stepC] }], summary := none, duration := none, distanceMeters := 1 }

/-- A degenerate walking step: two identical decoded points, metric
length zero. -/
def stepZ : Step :=
  { polyline := some [((0 : ℤ), (0 : ℤ)), (0, 0)]
    travelMode := some "WALK", instruction := none, distanceText := none
    distanceMeters := 0 }

/-- A route consisting of the single degenerate step `stepZ`. -/
def routeZ : Route :=
  { legs := [{ steps := [stepZ] }], summary := none, duration := none, distanceMeters := 0 }

/-- A transit step (same line as `stepC`, non-walking mode). -/
def stepT : Step :=
  { polyline := some [((0 : ℤ), (0 : ℤ)), (1, 0)]
    travelMode := some "TRANSIT", instruction := none, distanceText := none
    distanceMeters := 1 }

/-- A route consisting of the single non-walking step `stepT`. -/
def routeT : Route :=
  { legs := [{ steps := [stepT] }], summary := none, duration := none, distanceMeters := 1 }

/-- A one-element list of pairwise-distinct polygon rings. -/
def ringsW : List (List Cell) := [[((0 : ℤ), (0 : ℤ)), (1, 0)]]

/-- The exterior ring of a multi-polygon shelter part near `stepC`. -/
def ringM : List Cell := [((0 : ℤ), (0 : ℤ)), (1, 0), (1, 1), (0, 0)]

/-- A shelter dataset holding one multi-polygon shelter. -/
def sheltersM : List ShelterGeom := [ShelterGeom.multi [ringM]]

/-- A shelter dataset holding one polygon shelter lying on `stepC`. -/
def sheltersP : List ShelterGeom := [ShelterGeom.poly [((0 : ℤ), (0 : ℤ)), (1, 0)]]

/-- A raining station at the origin (distance 0 from `stepC`). -/
def rainO : List Cell := [((0 : ℤ), (0 : ℤ))]

/-- A concrete model of Python `float` for the height witness: parses
the single token `7`. -/
def pyFloat7 : String → Option ℚ := fun s => if s = "7" then some 7 else none

/-- A building row with an explicit parseable height tag and a levels
tag (the levels tag must be ignored). -/
def rowH : BuildingRow := { geom := .other, height := some "7 m", levels := some "3" }

/-- A building row with an unparseable height tag and a parseable
levels tag (the default must win). -/
def rowU : BuildingRow := { geom := .other, height := some "tall", levels := some "7" }

/-- A building row with only a parseable levels tag. -/
def rowL : BuildingRow := { geom := .other, height := none, levels := some "7" }

/-! ## Helper lemmas -/

theorem foldl_min_lt_iff (t : List ℕ) : ∀ (x c : ℕ),
    t.foldl min x < c ↔ x < c ∨ ∃ y ∈ t, y < c := by
  induction t with
  | nil => intro x c; simp
  | cons y t ih =>
      intro x c
      rw [List.foldl_cons, ih]
      simp [min_lt_iff, or_assoc]

theorem pyMin_lt_iff {xs : List ℕ} (h : xs ≠ []) (c : ℕ) :
    pyMin xs < c ↔ ∃ x ∈ xs, x < c := by
  match xs with
  | [] => exact absurd rfl h
  | x :: t => rw [pyMin, foldl_min_lt_iff]; simp

theorem rainHit_iff (rain : List Cell) (l : Line) :
    rainHit rain l = true ↔ ∃ p ∈ rain, lineDist l p < RAIN_PROXIMITY_METERS := by
  match rain with
  | [] => simp [rainHit]
  | p :: ps =>
      rw [rainHit, decide_eq_true_eq,
        pyMin_lt_iff (by simp : ((p :: ps).map (fun rp => lineDist l rp)) ≠ [])]
      constructor
      · rintro ⟨x, hx, hlt⟩
        rcases List.mem_map.mp hx with ⟨rp, hrp, rfl⟩
        exact ⟨rp, hrp, hlt⟩
      · rintro ⟨rp, hrp, hlt⟩
        exact ⟨lineDist l rp, List.mem_map.mpr ⟨rp, hrp, rfl⟩, hlt⟩

theorem length_filter_mono {α : Type} (l : List α) (p q : α → Bool)
    (h : ∀ a, p a = true → q a = true) :
    (l.filter p).length ≤ (l.filter q).length := by
  induction l with
  | nil => simp
  | cons a t ih =>
      by_cases hp : p a = true
      · rw [List.filter_cons_of_pos hp, List.filter_cons_of_pos (h a hp)]
        simpa using ih
      · rw [List.filter_cons_of_neg (by simpa using hp)]
        by_cases hq : q a = true
        · rw [List.filter_cons_of_pos hq]
          exact le_trans ih (Nat.le_succ _)
        · rw [List.filter_cons_of_neg (by simpa using hq)]
          exact ih

theorem interLen_nonneg (l : Line) (R : Region) : 0 ≤ interLen l R :=
  Nat.cast_nonneg _

theorem lineLen_nonneg (l : Line) : 0 ≤ lineLen l :=
  Nat.cast_nonneg _

theorem interLen_le_lineLen (l : Line) (R : Region) : interLen l R ≤ lineLen l := by
  rw [interLen, lineLen]
  exact_mod_cast List.length_filter_le _ _

theorem interLen_mono (l : Line) {R S : Region} (h : ∀ c, c ∈ R → c ∈ S) :
    interLen l R ≤ interLen l S := by
  rw [interLen, interLen, Nat.cast_le]
  refine length_filter_mono _ _ _ ?_
  intro a ha
  simp only [Bool.and_eq_true, decide_eq_true_eq] at ha ⊢
  exact ⟨h _ ha.1, h _ ha.2⟩

theorem shelteredLen_nonneg (shelters : Option (List ShelterGeom)) (l : Line) :
    0 ≤ shelteredLen shelters l := by
  match shelters with
  | none => simp [shelteredLen]
  | some shl =>
      rw [shelteredLen]
      by_cases h : preciseMatches shl l = []
      · simp [h]
      · simpa [h] using interLen_nonneg l (shelterUnionOf shl l)

theorem effectiveLen_le_lineLen (shadowU : Region) (shelters : Option (List ShelterGeom))
    (l : Line) : effectiveLen shadowU shelters l ≤ lineLen l := by
  match shelters with
  | none => exact interLen_le_lineLen l shadowU
  | some shl =>
      rw [effectiveLen]
      by_cases h : preciseMatches shl l = []
      · simpa [h] using interLen_le_lineLen l shadowU
      · simpa [h] using interLen_le_lineLen l (shadowU ++ shelterUnionOf shl l)

theorem effectiveLen_nonneg (shadowU : Region) (shelters : Option (List ShelterGeom))
    (l : Line) : 0 ≤ effectiveLen shadowU shelters l := by
  match shelters with
  | none => exact interLen_nonneg l shadowU
  | some shl =>
      rw [effectiveLen]
      by_cases h : preciseMatches shl l = []
      · simpa [h] using interLen_nonneg l shadowU
      · simpa [h] using interLen_nonneg l (shadowU ++ shelterUnionOf shl l)

theorem shelteredLen_le_effectiveLen (shadowU : Region) (shelters : Option (List ShelterGeom))
    (l : Line) : shelteredLen shelters l ≤ effectiveLen shadowU shelters l := by
  match shelters with
  | none => simpa [shelteredLen] using interLen_nonneg l shadowU
  | some shl =>
      rw [shelteredLen, effectiveLen]
      by_cases h : preciseMatches shl l = []
      · simpa [h] using interLen_nonneg l shadowU
      · simp only [h, if_neg, ite_false]
        exact interLen_mono l (fun c hc => List.mem_append_right _ hc)

theorem stepFold_skip (shadowU : Region) (shelters : Option (List ShelterGeom))
    (rain : List Cell) (acc : StepAcc) {s : Step} (h : validLine s = none) :
    stepFold shadowU shelters rain acc s = acc := by
  rw [stepFold, h]

theorem analyzedSteps_cons_none {s : Step} (h : validLine s = none) (t : List Step) :
    analyzedSteps (s :: t) = analyzedSteps t := by
  rw [analyzedSteps, List.filterMap_cons, h]
  rfl

theorem analyzedSteps_cons_some {s : Step} {l : Line} (h : validLine s = some l)
    (t : List Step) : analyzedSteps (s :: t) = (s, l) :: analyzedSteps t := by
  rw [analyzedSteps, List.filterMap_cons, h]
  rfl

theorem foldl_total (shadowU : Region) (shelters : Option (List ShelterGeom))
    (rain : List Cell) : ∀ (steps : List Step) (acc : StepAcc),
    (steps.foldl (stepFold shadowU shelters rain) acc).total_length_m
      = acc.total_length_m + ((analyzedSteps steps).map (fun p => lineLen p.2)).sum := by
  intro steps
  induction steps with
  | nil => intro acc; simp [analyzedSteps]
  | cons s t ih =>
      intro acc
      rw [List.foldl_cons, ih]
      cases h : validLine s with
      | none => rw [stepFold_skip _ _ _ _ h, analyzedSteps_cons_none h]
      | some l =>
          rw [analyzedSteps_cons_some h, List.map_cons, List.sum_cons, ← add_assoc]
          simp [stepFold, h]

theorem foldl_shadow (shadowU : Region) (shelters : Option (List ShelterGeom))
    (rain : List Cell) : ∀ (steps : List Step) (acc : StepAcc),
    (steps.foldl (stepFold shadowU shelters rain) acc).total_shadow_length_m
      = acc.total_shadow_length_m
        + ((analyzedSteps steps).map (fun p => effectiveLen shadowU shelters p.2)).sum := by
  intro steps
  induction steps with
  | nil => intro acc; simp [analyzedSteps]
  | cons s t ih =>
      intro acc
      rw [List.foldl_cons, ih]
      cases h : validLine s with
      | none => rw [stepFold_skip _ _ _ _ h, analyzedSteps_cons_none h]
      | some l =>
          rw [analyzedSteps_cons_some h, List.map_cons, List.sum_cons, ← add_assoc]
          simp [stepFold, h]

theorem foldl_sheltered (shadowU : Region) (shelters : Option (List ShelterGeom))
    (rain : List Cell) : ∀ (steps : List Step) (acc : StepAcc),
    (steps.foldl (stepFold shadowU shelters rain) acc).total_sheltered_length_m
      = acc.total_sheltered_length_m
        + ((analyzedSteps steps).map (fun p => shelteredLen shelters p.2)).sum := by
  intro steps
  induction steps with
  | nil => intro acc; simp [analyzedSteps]
  | cons s t ih =>
      intro acc
      rw [List.foldl_cons, ih]
      cases h : validLine s with
      | none => rw [stepFold_skip _ _ _ _ h, analyzedSteps_cons_none h]
      | some l =>
          rw [analyzedSteps_cons_some h, List.map_cons, List.sum_cons, ← add_assoc]
          simp [stepFold, h]

theorem foldl_walk_total (shadowU : Region) (shelters : Option (List ShelterGeom))
    (rain : List Cell) : ∀ (steps : List Step) (acc : StepAcc),
    (steps.foldl (stepFold shadowU shelters rain) acc).total_walk_length_m
      = acc.total_walk_length_m
        + ((analyzedSteps steps).map
            (fun p => if isWalk p.1 then lineLen p.2 else 0)).sum := by
  intro steps
  induction steps with
  | nil => intro acc; simp [analyzedSteps]
  | cons s t ih =>
      intro acc
      rw [List.foldl_cons, ih]
      cases h : validLine s with
      | none => rw [stepFold_skip _ _ _ _ h, analyzedSteps_cons_none h]
      | some l =>
          rw [analyzedSteps_cons_some h, List.map_cons, List.sum_cons, ← add_assoc]
          simp [stepFold, h]

theorem foldl_walk_shadow (shadowU : Region) (shelters : Option (List ShelterGeom))
    (rain : List Cell) : ∀ (steps : List Step) (acc : StepAcc),
    (steps.foldl (stepFold shadowU shelters rain) acc).total_walk_shadow_length_m
      = acc.total_walk_shadow_length_m
        + ((analyzedSteps steps).map
            (fun p => if isWalk p.1 then effectiveLen shadowU shelters p.2 else 0)).sum := by
  intro steps
  induction steps with
  | nil => intro acc; simp [analyzedSteps]
  | cons s t ih =>
      intro acc
      rw [List.foldl_cons, ih]
      cases h : validLine s with
      | none => rw [stepFold_skip _ _ _ _ h, analyzedSteps_cons_none h]
      | some l =>
          rw [analyzedSteps_cons_some h, List.map_cons, List.sum_cons, ← add_assoc]
          simp [stepFold, h]

theorem foldl_flag (shadowU : Region) (shelters : Option (List ShelterGeom))
    (rain : List Cell) : ∀ (steps : List Step) (acc : StepAcc),
    (steps.foldl (stepFold shadowU shelters rain) acc).is_rain_likely
      = (acc.is_rain_likely
          || steps.any (fun s => ((validLine s).map (fun l => rainHit rain l)).getD false)) := by
  intro steps
  induction steps with
  | nil => intro acc; simp
  | cons s t ih =>
      intro acc
      rw [List.foldl_cons, ih]
      cases h : validLine s with
      | none => simp [stepFold_skip _ _ _ _ h, h]
      | some l => simp [stepFold, h, Bool.or_assoc]

theorem foldl_steps_analysis (shadowU : Region) (shelters : Option (List ShelterGeom))
    (rain : List Cell) : ∀ (steps : List Step) (acc : StepAcc) (sa : StepAnalysis),
    sa ∈ (steps.foldl (stepFold shadowU shelters rain) acc).steps_analysis →
    sa ∈ acc.steps_analysis ∨ ∃ l : Line,
      sa.length_m = lineLen l ∧
      sa.shadow_length_m = effectiveLen shadowU shelters l ∧
      sa.shadow_ratio
        = (if 0 < lineLen l then effectiveLen shadowU shelters l / lineLen l else 0) := by
  intro steps
  induction steps with
  | nil => intro acc sa h; exact Or.inl h
  | cons s t ih =>
      intro acc sa h
      rw [List.foldl_cons] at h
      rcases ih _ sa h with hmem | hex
      · cases hv : validLine s with
        | none => rw [stepFold_skip _ _ _ _ hv] at hmem; exact Or.inl hmem
        | some l =>
            simp only [stepFold, hv] at hmem
            rcases List.mem_append.mp hmem with hacc | hnew
            · exact Or.inl hacc
            · refine Or.inr ⟨l, ?_⟩
              rcases List.mem_singleton.mp hnew with rfl
              exact ⟨rfl, rfl, rfl⟩
      · exact Or.inr hex

theorem scoreRoute_projections (shadowU : Region) (shelters : Option (List ShelterGeom))
    (rain : List Cell) (r : Route) :
    (scoreRoute shadowU shelters rain r).total_length_m
        = (routeAcc shadowU shelters rain r).total_length_m ∧
    (scoreRoute shadowU shelters rain r).shadow_length_m
        = (routeAcc shadowU shelters rain r).total_shadow_length_m ∧
    (scoreRoute shadowU shelters rain r).sheltered_length_m
        = (routeAcc shadowU shelters rain r).total_sheltered_length_m ∧
    (scoreRoute shadowU shelters rain r).steps_analysis
        = (routeAcc shadowU shelters rain r).steps_analysis := by
  rw [scoreRoute]
  split <;> simp [scoreRouteUngated]

theorem scoreRoute_ratio (shadowU : Region) (shelters : Option (List ShelterGeom))
    (rain : List Cell) (r : Route) :
    (scoreRoute shadowU shelters rain r).shadow_ratio
      = (scoreRouteUngated shadowU shelters rain r).shadow_ratio := by
  rw [scoreRoute]
  split <;> rfl

theorem scoreRouteUngated_ratio (shadowU : Region) (shelters : Option (List ShelterGeom))
    (rain : List Cell) (r : Route) :
    (scoreRouteUngated shadowU shelters rain r).shadow_ratio
      = (if 0 < (routeAcc shadowU shelters rain r).total_walk_length_m then
          (routeAcc shadowU shelters rain r).total_walk_shadow_length_m
            / (routeAcc shadowU shelters rain r).total_walk_length_m
        else if 0 < (routeAcc shadowU shelters rain r).total_length_m then
          (routeAcc shadowU shelters rain r).total_shadow_length_m
            / (routeAcc shadowU shelters rain r).total_length_m
        else 0) := rfl

/-- The descending-by-ratio relation used by the output sort. -/
abbrev ratioGE (a b : ScoredRoute) : Prop := b.shadow_ratio ≤ a.shadow_ratio

theorem mem_insertScored (x b : ScoredRoute) : ∀ (acc : List ScoredRoute),
    b ∈ insertScored x acc → b = x ∨ b ∈ acc := by
  intro acc
  induction acc with
  | nil => intro hb; rw [insertScored] at hb; simpa using hb
  | cons y ys ih =>
      intro hb
      rw [insertScored] at hb
      by_cases h1 : y.shadow_ratio < x.shadow_ratio
      · rw [if_pos h1] at hb
        rcases List.mem_cons.mp hb with rfl | hb2
        · exact Or.inl rfl
        · exact Or.inr hb2
      · rw [if_neg h1] at hb
        rcases List.mem_cons.mp hb with rfl | hb2
        · exact Or.inr (List.mem_cons_self _ _)
        · rcases ih hb2 with rfl | hb3
          · exact Or.inl rfl
          · exact Or.inr (List.mem_cons_of_mem _ hb3)

theorem insertScored_sorted (x : ScoredRoute) : ∀ (acc : List ScoredRoute),
    List.Sorted ratioGE acc → List.Sorted ratioGE (insertScored x acc) := by
  intro acc
  induction acc with
  | nil => intro _; rw [insertScored]; simp
  | cons y ys ih =>
      intro h
      rw [List.sorted_cons] at h
      rw [insertScored]
      by_cases hc : y.shadow_ratio < x.shadow_ratio
      · rw [if_pos hc, List.sorted_cons]
        refine ⟨?_, ?_⟩
        · intro b hb
          rcases List.mem_cons.mp hb with rfl | hb2
          · exact le_of_lt hc
          · exact le_trans (h.1 b hb2) (le_of_lt hc)
        · rw [List.sorted_cons]
          exact h
      · rw [if_neg hc, List.sorted_cons]
        refine ⟨?_, ih h.2⟩
        intro b hb
        rcases mem_insertScored x b ys hb with rfl | hb2
        · exact le_of_not_lt hc
        · exact h.1 b hb2

theorem sortScored_sorted_aux : ∀ (l acc : List ScoredRoute),
    List.Sorted ratioGE acc →
    List.Sorted ratioGE (l.foldl (fun a x => insertScored x a) acc) := by
  intro l
  induction l with
  | nil => intro acc h; exact h
  | cons x t ih =>
      intro acc h
      rw [List.foldl_cons]
      exact ih _ (insertScored_sorted x _ h)

theorem filter_insertScored (q : ℚ) (x : ScoredRoute) : ∀ (acc : List ScoredRoute),
    List.Sorted ratioGE acc →
    (insertScored x acc).filter (fun sr => decide (sr.shadow_ratio = q))
      = acc.filter (fun sr => decide (sr.shadow_ratio = q))
        ++ (if x.shadow_ratio = q then [x] else []) := by
  intro acc
  induction acc with
  | nil =>
      intro _
      by_cases hx : x.shadow_ratio = q <;> simp [insertScored, hx]
  | cons y ys ih =>
      intro h
      rw [List.sorted_cons] at h
      rw [insertScored]
      by_cases hc : y.shadow_ratio < x.shadow_ratio
      · rw [if_pos hc]
        by_cases hx : x.shadow_ratio = q
        · have hnil : (y :: ys).filter (fun sr => decide (sr.shadow_ratio = q)) = [] := by
            rw [List.filter_eq_nil_iff]
            intro a ha
            have hle : a.shadow_ratio ≤ y.shadow_ratio := by
              rcases List.mem_cons.mp ha with rfl | ha2
              · exact le_refl _
              · exact h.1 a ha2
            have hlt : a.shadow_ratio < q := hx ▸ lt_of_le_of_lt hle hc
            simp [ne_of_lt hlt]
          rw [List.filter_cons_of_pos (by simp [hx]), hnil]
          simp [hx]
        · rw [List.filter_cons_of_neg (by simp [hx])]
          simp [hx]
      · rw [if_neg hc]
        have ihys := ih h.2
        by_cases hy : y.shadow_ratio = q
        · rw [List.filter_cons_of_pos (by simp [hy]), List.filter_cons_of_pos (by simp [hy]),
            ihys, List.cons_append]
        · rw [List.filter_cons_of_neg (by simp [hy]), List.filter_cons_of_neg (by simp [hy]),
            ihys]

theorem sortScored_filter_aux (q : ℚ) : ∀ (l acc : List ScoredRoute),
    List.Sorted ratioGE acc →
    (l.foldl (fun a x => insertScored x a) acc).filter (fun sr => decide (sr.shadow_ratio = q))
      = acc.filter (fun sr => decide (sr.shadow_ratio = q))
        ++ l.filter (fun sr => decide (sr.shadow_ratio = q)) := by
  intro l
  induction l with
  | nil => intro acc h; simp
  | cons x t ih =>
      intro acc h
      rw [List.foldl_cons, ih _ (insertScored_sorted x _ h), filter_insertScored q x _ h,
        List.append_assoc, List.filter_cons]
      by_cases hx : x.shadow_ratio = q <;> simp [hx]

theorem mem_insertIdx (i b : ℕ) : ∀ (s : List ℕ), b ∈ insertIdx i s → b = i ∨ b ∈ s := by
  intro s
  induction s with
  | nil => intro hb; rw [insertIdx] at hb; simpa using hb
  | cons j t ih =>
      intro hb
      rw [insertIdx] at hb
      by_cases h1 : i < j
      · rw [if_pos h1] at hb
        rcases List.mem_cons.mp hb with rfl | hb2
        · exact Or.inl rfl
        · exact Or.inr hb2
      · rw [if_neg h1] at hb
        by_cases h2 : i = j
        · rw [if_pos h2] at hb
          exact Or.inr hb
        · rw [if_neg h2] at hb
          rcases List.mem_cons.mp hb with rfl | hb2
          · exact Or.inr (List.mem_cons_self _ _)
          · rcases ih hb2 with rfl | hb3
            · exact Or.inl rfl
            · exact Or.inr (List.mem_cons_of_mem _ hb3)

theorem insertIdx_sorted (i : ℕ) : ∀ (s : List ℕ),
    List.Sorted (fun a b => a < b) s → List.Sorted (fun a b => a < b) (insertIdx i s) := by
  intro s
  induction s with
  | nil => intro _; rw [insertIdx]; simp
  | cons j t ih =>
      intro h
      rw [List.sorted_cons] at h
      rw [insertIdx]
      by_cases h1 : i < j
      · rw [if_pos h1, List.sorted_cons]
        refine ⟨?_, ?_⟩
        · intro b hb
          rcases List.mem_cons.mp hb with rfl | hb2
          · exact h1
          · exact lt_trans h1 (h.1 b hb2)
        · rw [List.sorted_cons]
          exact h
      · rw [if_neg h1]
        by_cases h2 : i = j
        · rw [if_pos h2, List.sorted_cons]
          exact h
        · rw [if_neg h2, List.sorted_cons]
          have hj : j < i := lt_of_le_of_ne (le_of_not_lt h1) (Ne.symm h2)
          refine ⟨?_, ih h.2⟩
          intro b hb
          rcases mem_insertIdx i b t hb with rfl | hb2
          · exact hj
          · exact h.1 b hb2

theorem updateIdx_sorted : ∀ (new acc : List ℕ),
    List.Sorted (fun a b => a < b) acc →
    List.Sorted (fun a b => a < b) (updateIdx acc new) := by
  intro new
  induction new with
  | nil => intro acc h; exact h
  | cons i t ih =>
      intro acc h
      rw [updateIdx, List.foldl_cons]
      exact ih _ (insertIdx_sorted i _ h)

theorem foldl_idx_sorted (shadowU : Region) (shelters : Option (List ShelterGeom))
    (rain : List Cell) : ∀ (steps : List Step) (acc : StepAcc),
    List.Sorted (fun a b => a < b) acc.nearby_idx →
    List.Sorted (fun a b => a < b)
      ((steps.foldl (stepFold shadowU shelters rain) acc).nearby_idx) := by
  intro steps
  induction steps with
  | nil => intro acc h; exact h
  | cons s t ih =>
      intro acc h
      rw [List.foldl_cons]
      refine ih _ ?_
      cases hv : validLine s with
      | none =>
          rw [stepFold_skip _ _ _ _ hv]
          exact h
      | some l =>
          cases shelters with
          | none => simpa [stepFold, hv] using h
          | some shl =>
              by_cases hw : ((acc.is_rain_likely || rainHit rain l) && isWalk s) = true
              · simp only [stepFold, hv, hw, if_true]
                exact updateIdx_sorted _ _ h
              · simp only [stepFold, hv, hw, if_false]
                exact h

theorem foldl_idx_nowalk (shadowU : Region) (shelters : Option (List ShelterGeom))
    (rain : List Cell) : ∀ (steps : List Step) (acc : StepAcc),
    (∀ s ∈ steps, isWalk s = false) →
    ((steps.foldl (stepFold shadowU shelters rain) acc).nearby_idx) = acc.nearby_idx := by
  intro steps
  induction steps with
  | nil => intro acc _; rfl
  | cons s t ih =>
      intro acc hall
      rw [List.foldl_cons, ih _ (fun s2 hs2 => hall s2 (List.mem_cons_of_mem _ hs2))]
      cases hv : validLine s with
      | none => rw [stepFold_skip _ _ _ _ hv]
      | some l =>
          cases shelters with
          | none => simp [stepFold, hv]
          | some shl => simp [stepFold, hv, hall s (List.mem_cons_self _ _)]

theorem nodup_flatMap_single {α β : Type} (is : List α) (f : α → List β)
    (hnd : is.Nodup)
    (hsub : ∀ i ∈ is, f i = [] ∨ ∃ r, f i = [r])
    (hinj : ∀ i ∈ is, ∀ j ∈ is, ∀ r, f i = [r] → f j = [r] → i = j) :
    (is.flatMap f).Nodup := by
  induction is with
  | nil => simp
  | cons i t ih =>
      rw [List.flatMap_cons]
      rw [List.nodup_cons] at hnd
      refine List.Nodup.append ?_ ?_ ?_
      · rcases hsub i (List.mem_cons_self _ _) with h0 | ⟨r, hr⟩
        · rw [h0]; exact List.nodup_nil
        · rw [hr]; simp
      · exact ih hnd.2 (fun j hj => hsub j (List.mem_cons_of_mem _ hj))
          (fun j hj k hk => hinj j (List.mem_cons_of_mem _ hj) k (List.mem_cons_of_mem _ hk))
      · intro a hai hat
        rcases hsub i (List.mem_cons_self _ _) with h0 | ⟨r, hr⟩
        · rw [h0] at hai
          exact absurd hai (List.not_mem_nil a)
        · rw [hr] at hai
          rcases List.mem_singleton.mp hai with rfl
          rcases List.mem_flatMap.mp hat with ⟨j, hj, haj⟩
          rcases hsub j (List.mem_cons_of_mem _ hj) with h1 | ⟨r2, hr2⟩
          · rw [h1] at haj
            exact absurd haj (List.not_mem_nil _)
          · rw [hr2] at haj
            rcases List.mem_singleton.mp haj with rfl
            have hij := hinj i (List.mem_cons_self _ _) j (List.mem_cons_of_mem _ hj) _ hr hr2
            exact hnd.1 (hij ▸ hj)

/-! ## Claim theorems -/

/-- Claim C2: for every analyzed step, the effective protection length
equals the length of the step line intersected with the union of the
shadow union and the union of the shelters intersecting that step (a
geometric union, not a sum); when no shelter intersects the step it
equals the shadow-only intersection length. -/
theorem c2_effective_protection_union (shadowU : Region)
    (shelters : Option (List ShelterGeom)) (l : Line) :
    effectiveLen shadowU shelters l
      = interLen l (shadowU ++ shelterUnionOf (shelters.getD []) l) ∧
    (preciseMatches (shelters.getD []) l = [] →
      effectiveLen shadowU shelters l = interLen l shadowU) := by
  match shelters with
  | none =>
      constructor
      · rw [effectiveLen, Option.getD_none, shelterUnionOf]
        simp [preciseMatches, regionUnion]
      · intro _
        rfl
  | some shl =>
      rw [Option.getD_some]
      by_cases h : preciseMatches shl l = []
      · constructor
        · rw [effectiveLen, if_pos h, shelterUnionOf, h]
          simp [regionUnion]
        · intro _
          rw [effectiveLen, if_pos h]
      · constructor
        · rw [effectiveLen, if_neg h]
        · intro hc
          exact absurd hc h

/-- Witness for C2 at a concrete step away from the shelter dataset. -/
theorem c2_witness :
    preciseMatches ((some sheltersP).getD []) [((50 : ℤ), (50 : ℤ)), (51, 50)] = [] ∧
    effectiveLen [((0 : ℤ), (0 : ℤ)), (1, 0)] (some sheltersP)
        [((50 : ℤ), (50 : ℤ)), (51, 50)]
      = interLen [((50 : ℤ), (50 : ℤ)), (51, 50)] [((0 : ℤ), (0 : ℤ)), (1, 0)] :=
  ⟨by decide,
   (c2_effective_protection_union [((0 : ℤ), (0 : ℤ)), (1, 0)] (some sheltersP)
      [((50 : ℤ), (50 : ℤ)), (51, 50)]).2 (by decide)⟩

/-- Claim C3: when a route's `is_rain_likely` flag is false, the output
fields `sheltered_segments` and `nearby_shelters` are both cleared to
empty sequences regardless of computed shelter intersections, and no
other field of the scored route is affected by the clearing. -/
theorem c3_rain_gating_clears_shelter_fields (shadowU : Region)
    (shelters : Option (List ShelterGeom)) (rain : List Cell) (r : Route)
    (h : routeRainFlag shadowU shelters rain r = false) :
    scoreRoute shadowU shelters rain r
      = { scoreRouteUngated shadowU shelters rain r with
          sheltered_segments := [], nearby_shelters := [] } ∧
    (scoreRoute shadowU shelters rain r).sheltered_segments = [] ∧
    (scoreRoute shadowU shelters rain r).nearby_shelters = [] := by
  refine ⟨?_, ?_, ?_⟩ <;> simp [scoreRoute, h]

/-- Witness for C3: a concrete route scored with no rain data. -/
theorem c3_witness :
    routeRainFlag [] none [] routeC = false ∧
    (scoreRoute [] none [] routeC).sheltered_segments = [] ∧
    (scoreRoute [] none [] routeC).nearby_shelters = [] :=
  ⟨by decide,
   (c3_rain_gating_clears_shelter_fields [] none [] routeC (by decide)).2.1,
   (c3_rain_gating_clears_shelter_fields [] none [] routeC (by decide)).2.2⟩

/-- Claim C4: the route rain flag is true iff some analyzed step's line
lies strictly below 5000 m from some raining-station point; it is false
whenever the raining-station list is empty; and it is sticky — once the
accumulator carries a true flag, the remaining steps never clear it. -/
theorem c4_rain_flag_iff_station_below_threshold (shadowU : Region)
    (shelters : Option (List ShelterGeom)) (rain : List Cell) (r : Route) :
    (routeRainFlag shadowU shelters rain r = true ↔
      ∃ s ∈ routeSteps r, ∃ l : Line, validLine s = some l ∧
        ∃ p ∈ rain, lineDist l p < RAIN_PROXIMITY_METERS) ∧
    (rain = [] → routeRainFlag shadowU shelters rain r = false) ∧
    (∀ (steps : List Step) (acc : StepAcc), acc.is_rain_likely = true →
      (steps.foldl (stepFold shadowU shelters rain) acc).is_rain_likely = true) := by
  have hiff : routeRainFlag shadowU shelters rain r = true ↔
      ∃ s ∈ routeSteps r, ∃ l : Line, validLine s = some l ∧
        ∃ p ∈ rain, lineDist l p < RAIN_PROXIMITY_METERS := by
    rw [routeRainFlag, routeAcc, foldl_flag]
    have hinit : initAcc.is_rain_likely = false := rfl
    rw [hinit, Bool.false_or, List.any_eq_true]
    constructor
    · rintro ⟨s, hs, hpred⟩
      refine ⟨s, hs, ?_⟩
      cases hv : validLine s with
      | none => rw [hv] at hpred; simp at hpred
      | some l =>
          rw [hv] at hpred
          exact ⟨l, rfl, (rainHit_iff rain l).mp (by simpa using hpred)⟩
    · rintro ⟨s, hs, l, hv, hp⟩
      refine ⟨s, hs, ?_⟩
      rw [hv]
      simpa using (rainHit_iff rain l).mpr hp
  refine ⟨hiff, ?_, ?_⟩
  · intro hrain
    cases hfl : routeRainFlag shadowU shelters rain r with
    | false => rfl
    | true =>
        exfalso
        rcases hiff.mp hfl with ⟨s, _, l, _, p, hp, _⟩
        rw [hrain] at hp
        exact absurd hp (List.not_mem_nil p)
  · intro steps acc hacc
    rw [foldl_flag, hacc, Bool.true_or]

/-- Witness for C4: empty rain data gives a false flag, and the flag is
sticky from a raised accumulator. -/
theorem c4_witness :
    routeRainFlag [] none [] routeC = false ∧
    (([] : List Step).foldl (stepFold [] none [])
      { initAcc with is_rain_likely := true }).is_rain_likely = true :=
  ⟨(c4_rain_flag_iff_station_below_threshold [] none [] routeC).2.1 rfl,
   (c4_rain_flag_iff_station_below_threshold [] none [] routeC).2.2 []
     { initAcc with is_rain_likely := true } rfl⟩

/-- Claim C5: for every scored route, `total_length_m` is the sum of
the analyzed (non-skipped) step lengths and `shadow_length_m` never
exceeds it; every recorded step ratio lies in `[0, 1]`, and a step of
length 0 records ratio 0. -/
theorem c5_length_invariants (shadowU : Region) (shelters : Option (List ShelterGeom))
    (rain : List Cell) (r : Route) :
    (scoreRoute shadowU shelters rain r).total_length_m
      = ((analyzedSteps (routeSteps r)).map (fun p => lineLen p.2)).sum ∧
    (scoreRoute shadowU shelters rain r).shadow_length_m
      ≤ (scoreRoute shadowU shelters rain r).total_length_m ∧
    (∀ (i : ℕ) (hi : i < (scoreRoute shadowU shelters rain r).steps_analysis.length),
      0 ≤ ((scoreRoute shadowU shelters rain r).steps_analysis.get ⟨i, hi⟩).shadow_ratio ∧
      ((scoreRoute shadowU shelters rain r).steps_analysis.get ⟨i, hi⟩).shadow_ratio ≤ 1 ∧
      (((scoreRoute shadowU shelters rain r).steps_analysis.get ⟨i, hi⟩).length_m = 0 →
        ((scoreRoute shadowU shelters rain r).steps_analysis.get ⟨i, hi⟩).shadow_ratio = 0)) := by
  obtain ⟨ht, hs, _, hst⟩ := scoreRoute_projections shadowU shelters rain r
  refine ⟨?_, ?_, ?_⟩
  · rw [ht, routeAcc, foldl_total]
    simp [initAcc]
  · rw [ht, hs, routeAcc, foldl_total, foldl_shadow]
    have hinit : initAcc.total_length_m = 0 ∧ initAcc.total_shadow_length_m = 0 := ⟨rfl, rfl⟩
    rw [hinit.1, hinit.2, zero_add, zero_add]
    exact List.sum_le_sum (fun p _ => effectiveLen_le_lineLen shadowU shelters p.2)
  · intro i hi
    set sa := (scoreRoute shadowU shelters rain r).steps_analysis.get ⟨i, hi⟩ with hsa
    have hmem : sa ∈ (routeAcc shadowU shelters rain r).steps_analysis := by
      rw [← hst]
      exact List.get_mem _ i hi
    rw [routeAcc] at hmem
    rcases foldl_steps_analysis shadowU shelters rain _ _ _ hmem with h0 | ⟨l, hlen, _, hratio⟩
    · simp [initAcc] at h0
    · refine ⟨?_, ?_, ?_⟩
      · rw [hratio]
        by_cases hpos : 0 < lineLen l
        · rw [if_pos hpos]
          exact div_nonneg (effectiveLen_nonneg shadowU shelters l) (le_of_lt hpos)
        · rw [if_neg hpos]
      · rw [hratio]
        by_cases hpos : 0 < lineLen l
        · rw [if_pos hpos]
          exact (div_le_one hpos).mpr (effectiveLen_le_lineLen shadowU shelters l)
        · rw [if_neg hpos]
          exact zero_le_one
      · intro hzero
        rw [hlen] at hzero
        rw [hratio, hzero]
        simp

/-- Witness for C5: the first analyzed step of a degenerate route has a
valid index and, having length 0, records ratio 0. -/
theorem c5_witness :
    0 < (scoreRoute [] none [] routeZ).steps_analysis.length ∧
    ((scoreRoute [] none [] routeZ).steps_analysis.get
      ⟨0, by decide⟩).shadow_ratio = 0 :=
  ⟨by decide,
   ((c5_length_invariants [] none [] routeZ).2.2 0 (by decide)).2.2 (by decide)⟩

/-- Claim C6: the shadow height is the parsed leading numeric token of
a present, parseable height tag; otherwise, with the height tag absent,
three meters per parsed level; otherwise the 10 m default — which also
wins when a present tag is unparseable (even if the other tag would
parse). -/
theorem c6_building_height_resolution (pyFloat : String → Option ℚ) (row : BuildingRow) :
    (∀ h q, row.height = some h → pyFloat (leadingToken h) = some q →
        resolveHeight pyFloat row = q) ∧
    (∀ h, row.height = some h → pyFloat (leadingToken h) = none →
        resolveHeight pyFloat row = 10) ∧
    (∀ lv q, row.height = none → row.levels = some lv → pyFloat lv = some q →
        resolveHeight pyFloat row = q * 3) ∧
    (∀ lv, row.height = none → row.levels = some lv → pyFloat lv = none →
        resolveHeight pyFloat row = 10) ∧
    (row.height = none → row.levels = none → resolveHeight pyFloat row = 10) := by
  refine ⟨?_, ?_, ?_, ?_, ?_⟩
  · intro h q hh hp
    simp [resolveHeight, hh, hp]
  · intro h hh hp
    simp [resolveHeight, hh, hp]
  · intro lv q hh hl hp
    simp [resolveHeight, hh, hl, hp]
  · intro lv hh hl hp
    simp [resolveHeight, hh, hl, hp]
  · intro hh hl
    simp [resolveHeight, hh, hl]

/-- Witness for C6: a parseable height tag with a trailing unit, an
unparseable height tag shadowing a parseable levels tag, and a
levels-only row. -/
theorem c6_witness :
    pyFloat7 (leadingToken "7 m") = some 7 ∧
    resolveHeight pyFloat7 rowH = 7 ∧
    pyFloat7 (leadingToken "tall") = none ∧
    resolveHeight pyFloat7 rowU = 10 ∧
    resolveHeight pyFloat7 rowL = 7 * 3 :=
  ⟨rfl,
   (c6_building_height_resolution pyFloat7 rowH).1 "7 m" 7 rfl rfl,
   rfl,
   (c6_building_height_resolution pyFloat7 rowU).2.1 "tall" rfl rfl,
   (c6_building_height_resolution pyFloat7 rowL).2.2.1 "7" 7 rfl rfl rfl⟩

/-- Claim C7: the scale factor is `1 / tan(altitude)` for altitudes of
at least one degree and exactly 100 for altitudes strictly between 0
and 1 degree; at or below the horizon `calculate_shadows` returns the
empty sequence. -/
theorem c7_scale_factor_and_night :
    (∀ a : ℝ, 1 ≤ a → scale_factor a = 1 / Real.tan (a * Real.pi / 180)) ∧
    (∀ a : ℝ, 0 < a → a < 1 → scale_factor a = 100) ∧
    (∀ (pf : String → Option ℚ) (buildings : List BuildingRow) (az a : ℝ),
      a ≤ 0 → calculate_shadows pf buildings az a = []) := by
  refine ⟨?_, ?_, ?_⟩
  · intro a ha
    rw [scale_factor, if_neg (not_lt.mpr ha)]
  · intro a _ ha
    rw [scale_factor, if_pos ha]
  · intro pf buildings az a ha
    rw [calculate_shadows, if_pos ha]

/-- Witness for C7 at 45 degrees, half a degree, and the horizon. -/
theorem c7_witness :
    scale_factor 45 = 1 / Real.tan (45 * Real.pi / 180) ∧
    scale_factor (1 / 2) = 100 ∧
    calculate_shadows pyFloat7 [rowH] 90 0 = [] :=
  ⟨c7_scale_factor_and_night.1 45 (by norm_num),
   c7_scale_factor_and_night.2.1 (1 / 2) (by norm_num) (by norm_num),
   c7_scale_factor_and_night.2.2 pyFloat7 [rowH] 90 0 le_rfl⟩

/-- Claim C10: for every scored route, the reported sheltered length
never exceeds the reported shadow/protection length, because each
step's shelter-only intersection is at most its effective protection. -/
theorem c10_sheltered_le_shadow (shadowU : Region) (shelters : Option (List ShelterGeom))
    (rain : List Cell) (r : Route) :
    (scoreRoute shadowU shelters rain r).sheltered_length_m
      ≤ (scoreRoute shadowU shelters rain r).shadow_length_m := by
  obtain ⟨_, hs, hsh, _⟩ := scoreRoute_projections shadowU shelters rain r
  rw [hs, hsh, routeAcc, foldl_shadow, foldl_sheltered]
  have hinit : initAcc.total_shadow_length_m = 0 ∧ initAcc.total_sheltered_length_m = 0 :=
    ⟨rfl, rfl⟩
  rw [hinit.1, hinit.2, zero_add, zero_add]
  exact List.sum_le_sum (fun p _ => shelteredLen_le_effectiveLen shadowU shelters p.2)

/-- Claim C1: the scorer's output is sorted in descending order of the
chosen `shadow_ratio`; routes with equal ratio keep their relative
input order (the filter of the output at any ratio value equals the
filter of the pre-sort scored list); in particular a route of ratio 0.6
precedes a route of ratio 0.3. -/
theorem c1_output_sorted_stable (shelters : Option (List ShelterGeom))
    (rain : List Cell) (routes_data : List Route) (shadows : List Region) :
    List.Sorted ratioGE (analyze_routes shelters rain routes_data shadows) ∧
    (∀ q : ℚ,
      (analyze_routes shelters rain routes_data shadows).filter
          (fun sr => decide (sr.shadow_ratio = q))
        = (routes_data.map (scoreRoute (shadowUnion shadows) shelters rain)).filter
            (fun sr => decide (sr.shadow_ratio = q))) ∧
    (∀ (i j : Fin (analyze_routes shelters rain routes_data shadows).length),
      ((analyze_routes shelters rain routes_data shadows).get i).shadow_ratio = 3 / 5 →
      ((analyze_routes shelters rain routes_data shadows).get j).shadow_ratio = 3 / 10 →
      (i : ℕ) < (j : ℕ)) := by
  have hsorted : List.Sorted ratioGE (analyze_routes shelters rain routes_data shadows) := by
    rw [analyze_routes, sortScored]
    exact sortScored_sorted_aux _ [] List.sorted_nil
  refine ⟨hsorted, ?_, ?_⟩
  · intro q
    rw [analyze_routes, sortScored, sortScored_filter_aux q _ [] List.sorted_nil]
    simp
  · intro i j hi hj
    by_contra hnot
    push_neg at hnot
    rcases lt_or_eq_of_le hnot with hlt | heq
    · have hp : ((analyze_routes shelters rain routes_data shadows).get i).shadow_ratio
          ≤ ((analyze_routes shelters rain routes_data shadows).get j).shadow_ratio :=
        List.pairwise_iff_get.mp hsorted j i hlt
      rw [hi, hj] at hp
      norm_num at hp
    · have hij : j = i := Fin.ext heq
      rw [hij, hi] at hj
      norm_num at hj

/-- Witness for C1: two concrete one-step walking routes with ratios
0.3 and 0.6 in that input order; the output lists the 0.6 route first,
and the sorted-order consequence is produced by the claim theorem. -/
theorem c1_witness :
    (analyze_routes none [] [routeA, routeB] demoShadows).map ScoredRoute.shadow_ratio
      = [3 / 5, 3 / 10] ∧ (0 : ℕ) < 1 := by
  have hwalkA : isWalk stepA = true := rfl
  have hwalkB : isWalk stepB = true := rfl
  have hstepsA : analyzedSteps (routeSteps routeA) = [(stepA, lineA)] := by decide
  have hstepsB : analyzedSteps (routeSteps routeB) = [(stepB, lineB)] := by decide
  have hlenA : lineLen lineA = 10 := by
    rw [lineLen, show (lineSegs lineA).length = 10 from by decide]
    norm_num
  have hlenB : lineLen lineB = 5 := by
    rw [lineLen, show (lineSegs lineB).length = 5 from by decide]
    norm_num
  have heffA : effectiveLen (shadowUnion demoShadows) none lineA = 3 := by
    rw [show effectiveLen (shadowUnion demoShadows) none lineA
          = interLen lineA (shadowUnion demoShadows) from rfl,
      interLen, show (interSegs lineA (shadowUnion demoShadows)).length = 3 from by decide]
    norm_num
  have heffB : effectiveLen (shadowUnion demoShadows) none lineB = 3 := by
    rw [show effectiveLen (shadowUnion demoShadows) none lineB
          = interLen lineB (shadowUnion demoShadows) from rfl,
      interLen, show (interSegs lineB (shadowUnion demoShadows)).length = 3 from by decide]
    norm_num
  have hA : (scoreRoute (shadowUnion demoShadows) none [] routeA).shadow_ratio = 3 / 10 := by
    rw [scoreRoute_ratio, scoreRouteUngated_ratio, routeAcc, foldl_walk_total,
      foldl_walk_shadow, hstepsA]
    norm_num [hwalkA, hlenA, heffA, initAcc]
  have hB : (scoreRoute (shadowUnion demoShadows) none [] routeB).shadow_ratio = 3 / 5 := by
    rw [scoreRoute_ratio, scoreRouteUngated_ratio, routeAcc, foldl_walk_total,
      foldl_walk_shadow, hstepsB]
    norm_num [hwalkB, hlenB, heffB, initAcc]
  have hout : analyze_routes none [] [routeA, routeB] demoShadows
      = [scoreRoute (shadowUnion demoShadows) none [] routeB,
         scoreRoute (shadowUnion demoShadows) none [] routeA] := by
    rw [analyze_routes, List.map_cons, List.map_cons, List.map_nil, sortScored,
      List.foldl_cons, List.foldl_cons, List.foldl_nil]
    rw [show insertScored (scoreRoute (shadowUnion demoShadows) none [] routeA) []
          = [scoreRoute (shadowUnion demoShadows) none [] routeA] from rfl]
    simp only [insertScored]
    rw [if_pos (by rw [hA, hB]; norm_num)]
  have h0 : 0 < (analyze_routes none [] [routeA, routeB] demoShadows).length := by
    rw [hout]
    norm_num
  have h1 : 1 < (analyze_routes none [] [routeA, routeB] demoShadows).length := by
    rw [hout]
    norm_num
  have hg0 : (analyze_routes none [] [routeA, routeB] demoShadows).get ⟨0, h0⟩
      = scoreRoute (shadowUnion demoShadows) none [] routeB :=
    (List.get_of_eq hout ⟨0, h0⟩).trans rfl
  have hg1 : (analyze_routes none [] [routeA, routeB] demoShadows).get ⟨1, h1⟩
      = scoreRoute (shadowUnion demoShadows) none [] routeA :=
    (List.get_of_eq hout ⟨1, h1⟩).trans rfl
  refine ⟨?_, ?_⟩
  · rw [hout, List.map_cons, List.map_cons, List.map_nil, hA, hB]
  · exact (c1_output_sorted_stable none [] [routeA, routeB] demoShadows).2.2
      ⟨0, h0⟩ ⟨1, h1⟩ (by rw [hg0]; exact hB) (by rw [hg1]; exact hA)

theorem polyShelter_encoded {rings : List (List Cell)} {i : ℕ} {rr : List Cell}
    (h : ((((rings.map ShelterGeom.poly).get? i).map encodeShelter).getD []) = [rr]) :
    rings.get? i = some rr := by
  rw [List.get?_map] at h
  cases hr : rings.get? i with
  | none =>
      rw [hr] at h
      simp at h
  | some ring =>
      rw [hr] at h
      by_cases h2 : 2 ≤ ring.length
      · simp [encodeShelter, h2] at h
        rw [h]
      · simp [encodeShelter, h2] at h

/-- Claim C8 (amended): the nearby-shelter collection is gathered only
through the 100 m buffer of walking steps seen while `is_rain_likely`
is raised, with the shelter index set deduplicated across the route's
steps: with empty rain data, or with no walking step, the output is
empty, and with pairwise-distinct single-polygon shelters the encoded
output has no duplicates.  The claim's stronger clause — every shelter
contributes at most once — fails for multi-polygon shelters, whose
parts are each encoded twice (see the counterexample). -/
theorem c8_nearby_shelters_amended :
    (∀ (shadowU : Region) (shelters : Option (List ShelterGeom)) (r : Route),
      (scoreRoute shadowU shelters [] r).nearby_shelters = []) ∧
    (∀ (shadowU : Region) (shelters : Option (List ShelterGeom)) (rain : List Cell)
        (r : Route),
      (∀ s ∈ routeSteps r, isWalk s = false) →
      (scoreRoute shadowU shelters rain r).nearby_shelters = []) ∧
    (∀ (shadowU : Region) (rain : List Cell) (r : Route) (rings : List (List Cell)),
      rings.Nodup →
      ((scoreRoute shadowU (some (rings.map ShelterGeom.poly)) rain r).nearby_shelters).Nodup) := by
  refine ⟨?_, ?_, ?_⟩
  · intro shadowU shelters r
    have hpred : ∀ s : Step,
        (((validLine s).map (fun l => rainHit ([] : List Cell) l)).getD false) = false := by
      intro s
      cases validLine s <;> simp [rainHit]
    have hflag : routeRainFlag shadowU shelters [] r = false := by
      rw [routeRainFlag, routeAcc, foldl_flag]
      simp [initAcc, hpred]
    simp [scoreRoute, hflag]
  · intro shadowU shelters rain r hall
    have hidx : (routeAcc shadowU shelters rain r).nearby_idx = [] := by
      rw [routeAcc, foldl_idx_nowalk _ _ _ _ _ hall]
      rfl
    have hne : nearbyEncoded shelters [] = [] := by
      cases shelters <;> simp [nearbyEncoded]
    rw [scoreRoute]
    split
    · rw [show (scoreRouteUngated shadowU shelters rain r).nearby_shelters
          = nearbyEncoded shelters (routeAcc shadowU shelters rain r).nearby_idx from rfl,
        hidx, hne]
    · rfl
  · intro shadowU rain r rings hnd
    rw [scoreRoute]
    split
    · rw [show (scoreRouteUngated shadowU (some (rings.map ShelterGeom.poly)) rain
            r).nearby_shelters
          = nearbyEncoded (some (rings.map ShelterGeom.poly))
              (routeAcc shadowU (some (rings.map ShelterGeom.poly)) rain r).nearby_idx
          from rfl]
      have hsorted : List.Sorted (fun a b => a < b)
          ((routeAcc shadowU (some (rings.map ShelterGeom.poly)) rain r).nearby_idx) := by
        rw [routeAcc]
        exact foldl_idx_sorted _ _ _ _ _ (by simp [initAcc])
      have hnodup : ((routeAcc shadowU (some (rings.map ShelterGeom.poly)) rain
          r).nearby_idx).Nodup :=
        List.Pairwise.imp (fun hab => ne_of_lt hab) hsorted
      simp only [nearbyEncoded]
      by_cases hidx : (routeAcc shadowU (some (rings.map ShelterGeom.poly)) rain
          r).nearby_idx = []
      · simp [hidx]
      · rw [if_neg hidx]
        apply nodup_flatMap_single _ _ hnodup
        · intro i _
          rw [List.get?_map]
          cases hr : rings.get? i with
          | none => left; simp
          | some ring =>
              by_cases h2 : 2 ≤ ring.length
              · right
                exact ⟨ring, by simp [encodeShelter, h2]⟩
              · left
                simp [encodeShelter, h2]
        · intro i _ j _ rr hfi hfj
          have hri := polyShelter_encoded hfi
          have hrj := polyShelter_encoded hfj
          have hlen : i < rings.length := by
            rcases List.get?_eq_some.mp hri with ⟨hl, _⟩
            exact hl
          exact List.get?_inj hlen hnd (hri.trans hrj.symm)
    · simp

/-- Counterexample to C8 as stated: a multi-polygon shelter near a
rain-affected walking step has its single part encoded twice in
`nearby_shelters`, so a distinct nearby shelter can contribute more
than once. -/
theorem c8_counterexample :
    (scoreRoute [] (some sheltersM) rainO routeC).nearby_shelters = [ringM, ringM] ∧
    ((scoreRoute [] (some sheltersM) rainO routeC).nearby_shelters).count ringM = 2 := by
  refine ⟨?_, ?_⟩ <;> decide

/-- Witness for the amended C8: a non-walking route collects nothing,
and a distinct-polygon dataset yields a duplicate-free output. -/
theorem c8_witness :
    (∀ s ∈ routeSteps routeT, isWalk s = false) ∧
    (scoreRoute [] (some sheltersP) rainO routeT).nearby_shelters = [] ∧
    ringsW.Nodup ∧
    ((scoreRoute [] (some (ringsW.map ShelterGeom.poly)) rainO routeC).nearby_shelters).Nodup :=
  ⟨by decide,
   c8_nearby_shelters_amended.2.1 [] (some sheltersP) rainO routeT (by decide),
   by decide,
   c8_nearby_shelters_amended.2.2 [] rainO routeC ringsW (by decide)⟩

/-- Counterexample to C9 as stated: `analyze_routes` consults the live
rainfall feed fetched inside the call, so two invocations with
identical route candidates and identical shadow polygons can differ
when the fetched rainfall readings differ. -/
theorem c9_counterexample :
    analyze_routes (some sheltersP) [] [routeC] []
      ≠ analyze_routes (some sheltersP) rainO [routeC] [] := by
  intro h
  have hmap := congrArg (List.map (fun sr => sr.sheltered_segments)) h
  have h1 : (analyze_routes (some sheltersP) [] [routeC] []).map
      (fun sr => sr.sheltered_segments) = [[]] := by decide
  have h2 : (analyze_routes (some sheltersP) rainO [routeC] []).map
      (fun sr => sr.sheltered_segments) = [[[((0 : ℤ), (0 : ℤ)), (1, 0)]]] := by decide
  rw [h1, h2] at hmap
  exact absurd hmap (by decide)

/-- Claim C9 (amended): scoring is deterministic as a function of the
scorer's full inputs — the shelter dataset, the rainfall stations
fetched during the call, the route candidates and the shadow polygons;
two runs agreeing on all four produce identical output.  (Runs agreeing
only on routes and shadows may differ, as the rainfall fetch is an
external input; see the counterexample.) -/
theorem c9_determinism_amended (sh1 sh2 : Option (List ShelterGeom))
    (rain1 rain2 : List Cell) (rts1 rts2 : List Route) (shs1 shs2 : List Region)
    (hsh : sh1 = sh2) (hrain : rain1 = rain2) (hrts : rts1 = rts2) (hshs : shs1 = shs2) :
    analyze_routes sh1 rain1 rts1 shs1 = analyze_routes sh2 rain2 rts2 shs2 := by
  rw [hsh, hrain, hrts, hshs]

/-- Witness for the amended C9 at concrete inputs. -/
theorem c9_witness :
    analyze_routes (some sheltersP) rainO [routeC] []
      = analyze_routes (some sheltersP) rainO [routeC] [] :=
  c9_determinism_amended (some sheltersP) (some sheltersP) rainO rainO [routeC] [routeC]
    [] [] rfl rfl rfl rfl

end SunRouter
